import Mathlib

/-!
Verification of the OTA update daemon (robot-ai OTA) against its design
specification.  Each component of the daemon that the specification's
testable properties mention is shallowly embedded here:

* `src/daemon/network/ota_client.py` — checksum verification (SHA-256),
  retrying manifest fetch / file download, status reporting;
* `src/daemon/backup/system_backup.py` — backup creation, archive
  verification, retention pruning, backup enumeration;
* `src/daemon/scheduler/task_scheduler.py` — task next-execution
  computation and due-ness;
* `src/daemon/main.py` — the orchestrator's `_apply_update`,
  `_schedule_update` and `_check_disk_space`.

Python strings are modelled as `List Char`; Python `datetime` values as a
(day index, microseconds-since-midnight) pair; file sizes and byte
payloads as naturals; file modification times as rationals.  Network and
filesystem effects are passed in explicitly as outcome environments, and
functions that perform side effects return traces (events emitted, files
written, sleeps performed) so that the ordering obligations of the
specification can be stated.
-/

set_option maxRecDepth 20000

abbrev PyStr := List Char

/-- `str.split(sep)` for a one-character separator, as in
`name.split("_")` / `schedule_time.split(':')` in the daemon sources. -/
def splitOnCharAux (sep : Char) : List Char → List Char → List PyStr
  | [], acc => [acc.reverse]
  | c :: cs, acc =>
    if c = sep then acc.reverse :: splitOnCharAux sep cs []
    else splitOnCharAux sep cs (c :: acc)

def splitOnChar (sep : Char) (s : PyStr) : List PyStr :=
  splitOnCharAux sep s []

/-- ASCII lower-casing of one character, the fragment of `str.lower()`
relevant to hex digests and version strings. -/
def lowerChar (c : Char) : Char :=
  if 'A' ≤ c ∧ c ≤ 'Z' then Char.ofNat (c.toNat + 32) else c

/-- ASCII upper-casing of one character (used to state the
case-insensitivity half of checksum verification). -/
def upperChar (c : Char) : Char :=
  if 'a' ≤ c ∧ c ≤ 'z' then Char.ofNat (c.toNat - 32) else c

def pyLower (s : PyStr) : PyStr := s.map lowerChar

def pyUpper (s : PyStr) : PyStr := s.map upperChar

/-! ### Task scheduler (`src/daemon/scheduler/task_scheduler.py`)

`Task._calculate_next_execution` parses `schedule_time` as `HH:MM` via
`map(int, schedule_time.split(':'))`, builds
`now.replace(hour=hour, minute=minute, second=0, microsecond=0)`, and
rolls the target to tomorrow when it is not in the future.  Any parsing
or `replace` exception is caught and leaves `next_execution = None`.
-/

/-- A Python `datetime`: a calendar day index and the number of
microseconds since that day's midnight (`datetime` has microsecond
resolution).  A normalised value has `0 ≤ usec < 86400000000`. -/
structure PyDateTime where
  day : ℤ
  usec : ℤ
deriving DecidableEq

/-- `datetime` comparison `a <= b` (lexicographic on normalised values). -/
def PyDateTime.le (a b : PyDateTime) : Bool :=
  decide (a.day < b.day) || (decide (a.day = b.day) && decide (a.usec ≤ b.usec))

/-- Absolute time in microseconds, for stating distance between instants. -/
def PyDateTime.abs (t : PyDateTime) : ℤ := t.day * 86400000000 + t.usec

def usecPerDay : ℤ := 86400000000

def isPySpace (c : Char) : Bool :=
  c = ' ' || c = '\t' || c = '\n' || c = '\r' || c = '\x0b' || c = '\x0c'

def pyStrip (s : PyStr) : PyStr :=
  ((s.dropWhile isPySpace).reverse.dropWhile isPySpace).reverse

/-- Python `int(...)` digit grammar after the first digit: digits with
single underscores allowed between digits. -/
def pyDigitsTail : List Char → Bool
  | [] => true
  | '_' :: c :: rest => c.isDigit && pyDigitsTail rest
  | '_' :: [] => false
  | c :: rest => c.isDigit && pyDigitsTail rest

def pyIntDigits : List Char → Bool
  | [] => false
  | c :: rest => c.isDigit && pyDigitsTail rest

def digitsValue (ds : List Char) : ℕ :=
  ds.foldl (fun a c => a * 10 + (c.toNat - 48)) 0

def digitsValueNoSep (ds : List Char) : ℕ :=
  digitsValue (ds.filter (fun c => c ≠ '_'))

/-- Python `int(s)` for base-10 strings: optional surrounding whitespace,
optional sign, digits with single interior underscores. -/
def pyParseInt (s : PyStr) : Option ℤ :=
  match pyStrip s with
  | '-' :: rest =>
    if pyIntDigits rest then some (-(digitsValueNoSep rest : ℤ)) else none
  | '+' :: rest =>
    if pyIntDigits rest then some ((digitsValueNoSep rest : ℤ)) else none
  | t => if pyIntDigits t then some ((digitsValueNoSep t : ℤ)) else none

/-- `hour, minute = map(int, schedule_time.split(':'))`: exactly two
colon-separated fields, each a Python integer; anything else raises and
is caught by the caller. -/
def parse_schedule_time (s : PyStr) : Option (ℤ × ℤ) :=
  match splitOnChar ':' s with
  | [hs, ms] =>
    match pyParseInt hs, pyParseInt ms with
    | some h, some m => some (h, m)
    | _, _ => none
  | _ => none

/-- `Task._calculate_next_execution`.  `none` / the empty string mean "no
schedule time" (`if not self.schedule_time`), so the task is due
immediately.  `now.replace(hour=h, minute=m, second=0, microsecond=0)`
requires `0 ≤ h ≤ 23` and `0 ≤ m ≤ 59`, else it raises `ValueError`,
which the method catches, leaving `next_execution = None`. -/
def calculate_next_execution (schedule_time : Option PyStr) (now : PyDateTime) :
    Option PyDateTime :=
  match schedule_time with
  | none => some now
  | some s =>
    if s = [] then some now
    else
      match parse_schedule_time s with
      | none => none
      | some (h, m) =>
        if 0 ≤ h ∧ h ≤ 23 ∧ 0 ≤ m ∧ m ≤ 59 then
          let target : PyDateTime := ⟨now.day, (h * 3600 + m * 60) * 1000000⟩
          if PyDateTime.le target now then some ⟨target.day + 1, target.usec⟩
          else some target
        else none

/-- `Task.is_due`: false when `next_execution` is `None`, else
`datetime.now() >= next_execution`. -/
def is_due (next_execution : Option PyDateTime) (now : PyDateTime) : Bool :=
  match next_execution with
  | none => false
  | some t => PyDateTime.le t now

/-- A scheduler `Task` as built by `Task.__init__`, which stores the
schedule time and immediately computes `next_execution`.  (Named
`SchedTask` here only because `Task` is taken by the Lean prelude.) -/
structure SchedTask where
  name : PyStr
  schedule_time : Option PyStr
  last_executed : Option PyDateTime
  next_execution : Option PyDateTime

def mkTask (name : PyStr) (schedule_time : Option PyStr) (now : PyDateTime) : SchedTask :=
  { name := name
    schedule_time := schedule_time
    last_executed := none
    next_execution := calculate_next_execution schedule_time now }

/-! ### Checksum verifier (`OTAClient.verify_file`)

`verify_file` computes `hashlib.sha256` over the file's bytes, takes the
lowercase hex digest, and compares it case-insensitively
(`actual.lower() == expected.lower()`) with the manifest-declared
checksum.  SHA-256 is embedded below over naturals reduced mod `2^32`.
-/

def w32 : ℕ := 4294967296

def rotr32 (n x : ℕ) : ℕ := ((x >>> n) ||| (x <<< (32 - n))) % w32

def xor32 (a b : ℕ) : ℕ := a ^^^ b

def not32 (x : ℕ) : ℕ := x ^^^ 4294967295

def shaCh (x y z : ℕ) : ℕ := xor32 (x &&& y) (not32 x &&& z)

def shaMaj (x y z : ℕ) : ℕ := xor32 (xor32 (x &&& y) (x &&& z)) (y &&& z)

def bigSigma0 (x : ℕ) : ℕ := xor32 (xor32 (rotr32 2 x) (rotr32 13 x)) (rotr32 22 x)

def bigSigma1 (x : ℕ) : ℕ := xor32 (xor32 (rotr32 6 x) (rotr32 11 x)) (rotr32 25 x)

def smallSigma0 (x : ℕ) : ℕ := xor32 (xor32 (rotr32 7 x) (rotr32 18 x)) (x >>> 3)

def smallSigma1 (x : ℕ) : ℕ := xor32 (xor32 (rotr32 17 x) (rotr32 19 x)) (x >>> 10)

def shaK : List ℕ :=
  [1116352408, 1899447441, 3049323471, 3921009573, 961987163,
   1508970993, 2453635748, 2870763221, 3624381080, 310598401,
   607225278, 1426881987, 1925078388, 2162078206, 2614888103,
   3248222580, 3835390401, 4022224774, 264347078, 604807628,
   770255983, 1249150122, 1555081692, 1996064986, 2554220882,
   2821834349, 2952996808, 3210313671, 3336571891, 3584528711,
   113926993, 338241895, 666307205, 773529912, 1294757372,
   1396182291, 1695183700, 1986661051, 2177026350, 2456956037,
   2730485921, 2820302411, 3259730800, 3345764771, 3516065817,
   3600352804, 4094571909, 275423344, 430227734, 506948616,
   659060556, 883997877, 958139571, 1322822218, 1537002063,
   1747873779, 1955562222, 2024104815, 2227730452, 2361852424,
   2428436474, 2756734187, 3204031479, 3329325298]

def shaH0 : List ℕ :=
  [1779033703, 3144134277, 1013904242, 2773480762,
   1359893119, 2600822924, 528734635, 1541459225]

/-- Big-endian byte encoding of `n` on `len` bytes. -/
def toBytesBE (len n : ℕ) : List ℕ :=
  match len with
  | 0 => []
  | k + 1 => toBytesBE k (n >>> 8) ++ [n % 256]

/-- SHA-256 padding: append `0x80`, zero bytes to 56 mod 64, then the
64-bit big-endian bit length. -/
def shaPad (msg : List ℕ) : List ℕ :=
  let l := msg.length
  let zeros := (64 + 55 - l % 64) % 64
  msg ++ [0x80] ++ List.replicate zeros 0 ++ toBytesBE 8 (8 * l)

/-- Split a list into consecutive chunks of `n` elements (structural
recursion on a fuel argument so that it reduces in the kernel). -/
def chunksOfAux (n : ℕ) : ℕ → List α → List (List α)
  | 0, _ => []
  | _, [] => []
  | fuel + 1, a :: rest => (a :: rest).take n :: chunksOfAux n fuel ((a :: rest).drop n)

def chunksOf (n : ℕ) (l : List α) : List (List α) :=
  chunksOfAux n l.length l

/-- Pack four bytes into one big-endian 32-bit word. -/
def packWord : List ℕ → ℕ
  | [b0, b1, b2, b3] => ((b0 <<< 24) ||| (b1 <<< 16) ||| (b2 <<< 8) ||| b3) % w32
  | _ => 0

/-- The 64-entry message schedule from a 16-word block. -/
def extendSchedule : ℕ → List ℕ → List ℕ
  | 0, w => w
  | n + 1, w =>
    let l := w.length
    let next := (w.getD (l - 16) 0 + smallSigma0 (w.getD (l - 15) 0) +
                 w.getD (l - 7) 0 + smallSigma1 (w.getD (l - 2) 0)) % w32
    extendSchedule n (w ++ [next])

/-- One round of the SHA-256 compression function; the state is the list
`[a, b, c, d, e, f, g, h]`. -/
def shaRound (st : List ℕ) (kw : ℕ × ℕ) : List ℕ :=
  let a := st.getD 0 0
  let b := st.getD 1 0
  let c := st.getD 2 0
  let d := st.getD 3 0
  let e := st.getD 4 0
  let f := st.getD 5 0
  let g := st.getD 6 0
  let h := st.getD 7 0
  let t1 := (h + bigSigma1 e + shaCh e f g + kw.1 + kw.2) % w32
  let t2 := (bigSigma0 a + shaMaj a b c) % w32
  [(t1 + t2) % w32, a, b, c, (d + t1) % w32, e, f, g]

def compressBlock (h : List ℕ) (block : List ℕ) : List ℕ :=
  let w := extendSchedule 48 ((chunksOf 4 block).map packWord)
  let st := (shaK.zip w).foldl (fun st kw => shaRound st (kw.1, kw.2)) h
  (h.zip st).map (fun p => (p.1 + p.2) % w32)

/-- SHA-256 of a byte string, as eight 32-bit words. -/
def sha256 (msg : List ℕ) : List ℕ :=
  (chunksOf 64 (shaPad msg)).foldl compressBlock shaH0

def hexChar (d : ℕ) : Char :=
  if d < 10 then Char.ofNat (48 + d) else Char.ofNat (87 + d)

/-- Lowercase hex of `n` on `k` digits, most significant first. -/
def natToHex : ℕ → ℕ → List Char
  | 0, _ => []
  | k + 1, n => natToHex k (n >>> 4) ++ [hexChar (n % 16)]

/-- `hashlib.sha256(...).hexdigest()`: 64 lowercase hex characters. -/
def sha256_hexdigest (msg : List ℕ) : PyStr :=
  ((sha256 msg).map (natToHex 8)).flatten

/-- `OTAClient.verify_file` on a file that exists, given by its byte
content: the SHA-256 hex digest is compared case-insensitively with the
declared checksum. -/
def verify_file (payload : List ℕ) (expected_checksum : PyStr) : Bool :=
  decide (pyLower (sha256_hexdigest payload) = pyLower expected_checksum)

/-- Flip bit `i` (little-endian within each byte) of a byte payload. -/
def flipBit (payload : List ℕ) (i : ℕ) : List ℕ :=
  payload.set (i / 8) ((payload.getD (i / 8) 0) ^^^ (1 <<< (i % 8)))

/-! ### Retrying transport (`OTAClient.fetch_manifest`, `download_file`,
`report_update_status`)

The network is an explicit environment assigning an outcome to each
attempt number.  Each operation returns a trace: its result, the number
of attempts actually performed, and the list of back-off sleeps (in
seconds) in the order they were performed.  In the source
`max_retries = 5` and `retry_delay = 5`.
-/

def max_retries : ℕ := 5

def retry_delay : ℕ := 5

/-- A manifest as parsed from JSON: the fields `fetch_manifest` inspects.
`none` models an absent key. -/
structure PyManifest where
  version : Option PyStr
  release_date : Option PyStr
  files : Option (List PyStr)
deriving DecidableEq

/-- Outcome of one attempt of the `fetch_manifest` loop body. -/
inductive FetchOutcome
  | got (m : PyManifest)   -- HTTP read and JSON parse succeeded
  | netError               -- `urllib.error.URLError`: retried
  | jsonError              -- `json.JSONDecodeError`: not retried
  | otherError             -- any other exception: not retried
deriving DecidableEq

structure FetchTrace where
  result : Option PyManifest
  attempts : ℕ
  sleeps : List ℕ
deriving DecidableEq

/-- Body of `for attempt in range(1, self.max_retries + 1)` in
`fetch_manifest`.  `remaining` is the number of loop iterations left, so
`attempt < max_retries` iff `remaining > 1`.  A parsed manifest missing
`version` or `release_date` returns `None` without retrying; when
talking to the mock server a missing `files` key is defaulted to `[]`. -/
def fetch_manifest_loop (outcome : ℕ → FetchOutcome) (usingMock : Bool) :
    ℕ → ℕ → FetchTrace
  | _, 0 => ⟨none, 0, []⟩
  | attempt, remaining + 1 =>
    match outcome attempt with
    | .got m =>
      if m.version = none ∨ m.release_date = none then ⟨none, 1, []⟩
      else if usingMock ∧ m.files = none then ⟨some { m with files := some [] }, 1, []⟩
      else ⟨some m, 1, []⟩
    | .jsonError => ⟨none, 1, []⟩
    | .otherError => ⟨none, 1, []⟩
    | .netError =>
      if remaining = 0 then ⟨none, 1, []⟩
      else
        let t := fetch_manifest_loop outcome usingMock (attempt + 1) remaining
        ⟨t.result, t.attempts + 1, retry_delay * 2 ^ (attempt - 1) :: t.sleeps⟩

def fetch_manifest (outcome : ℕ → FetchOutcome) (usingMock : Bool) : FetchTrace :=
  fetch_manifest_loop outcome usingMock 1 max_retries

/-- Outcome of one attempt of the `download_file` loop body: any
exception (network, filesystem) lands in the same `except` and is
retried. -/
inductive DownloadOutcome
  | ok
  | fail
deriving DecidableEq

structure DownloadTrace where
  ok : Bool
  attempts : ℕ
  sleeps : List ℕ
deriving DecidableEq

def download_file_loop (outcome : ℕ → DownloadOutcome) : ℕ → ℕ → DownloadTrace
  | _, 0 => ⟨false, 0, []⟩
  | attempt, remaining + 1 =>
    match outcome attempt with
    | .ok => ⟨true, 1, []⟩
    | .fail =>
      if remaining = 0 then ⟨false, 1, []⟩
      else
        let t := download_file_loop outcome (attempt + 1) remaining
        ⟨t.ok, t.attempts + 1, retry_delay * 2 ^ (attempt - 1) :: t.sleeps⟩

def download_file (outcome : ℕ → DownloadOutcome) : DownloadTrace :=
  download_file_loop outcome 1 max_retries

/-- Outcome of the single POST performed by `report_update_status`. -/
inductive ReportOutcome
  | ok200        -- response.status == 200
  | badStatus    -- any other HTTP status
  | raised       -- exception while posting
deriving DecidableEq

/-- `OTAClient.report_update_status` performs exactly one request: there
is no retry loop in its body.  It returns `True` only on HTTP 200. -/
def report_update_status (outcome : ReportOutcome) : DownloadTrace :=
  match outcome with
  | .ok200 => ⟨true, 1, []⟩
  | .badStatus => ⟨false, 1, []⟩
  | .raised => ⟨false, 1, []⟩

/-! ### Backup store (`src/daemon/backup/system_backup.py`)

Backups live in one directory; the model carries, for each archive file
of this device, its filename, its modification time, and the attributes
`_verify_backup` inspects (byte size, readability as a gzipped tar, and
the number of archive members).
-/

structure BackupFile where
  name : PyStr
  mtime : ℚ
  sizeBytes : ℕ
  entries : ℕ
  readable : Bool
deriving DecidableEq

/-- `BackupManager._verify_backup`: the file must exist with non-zero
size, open as a tar archive, and contain at least one member. -/
def verify_backup (exists_ : Bool) (sizeBytes : ℕ) (readable : Bool) (entries : ℕ) :
    Bool :=
  if !exists_ || sizeBytes == 0 then false
  else if !readable then false
  else if entries == 0 then false
  else true

/-- The archive filename written by `create_backup`:
`robot-ai_backup_{version}_{device_id}_{timestamp}.tar.gz` with
`timestamp = now.strftime("%Y%m%d_%H%M%S")`. -/
def backup_filename (version device_id timestamp : PyStr) : PyStr :=
  "robot-ai_backup_".data ++ version ++ "_".data ++ device_id ++ "_".data ++
    timestamp ++ ".tar.gz".data

/-- Sort a directory listing the way `sorted(..., key=mtime,
reverse=True)` does: newest first, ties in listing order.  Python's
sort is stable, and any stable sort with respect to the same total
preorder produces the same list, so insertion sort (which reduces in
the kernel) is used here. -/
def sortByMtimeDesc (files : List BackupFile) : List BackupFile :=
  files.insertionSort (fun a b => b.mtime ≤ a.mtime)

/-- `BackupManager._cleanup_old_backups`, split into what remains and
the sequence of deletions: the listing is sorted newest-first and every
file past the first `retention` entries is unlinked, in that sorted
order. -/
def cleanup_plan (retention : ℕ) (files : List BackupFile) :
    List BackupFile × List BackupFile :=
  let sorted := sortByMtimeDesc files
  (sorted.take retention, sorted.drop retention)

/-- What the archive-writing phase of `create_backup` did: either the
tar file was written with the given attributes, or staging/writing
raised before the archive file came into existence. -/
inductive ArchiveWrite
  | written (sizeBytes : ℕ) (entries : ℕ) (readable : Bool)
  | raisedBeforeWrite
deriving DecidableEq

structure CreateBackupResult where
  ok : Bool
  message : PyStr        -- the backup path on success, an error otherwise
  disk : List BackupFile -- this device's backup files afterwards
deriving DecidableEq

/-- `BackupManager.create_backup`: stage and write the archive, verify
it, and only on successful verification run retention pruning and
return success.  On verification failure it returns failure — with no
deletion of the freshly written archive. -/
def create_backup (retention : ℕ) (device_id version timestamp : PyStr)
    (disk : List BackupFile) (write : ArchiveWrite) (newMtime : ℚ) :
    CreateBackupResult :=
  let fname := backup_filename version device_id timestamp
  match write with
  | .raisedBeforeWrite => ⟨false, "Error creating backup".data, disk⟩
  | .written sizeBytes entries readable =>
    let disk1 := disk ++ [⟨fname, newMtime, sizeBytes, entries, readable⟩]
    if verify_backup true sizeBytes readable entries then
      ⟨true, fname, (cleanup_plan retention disk1).1⟩
    else
      ⟨false, "Backup verification failed".data, disk1⟩

/-- A parsed `%Y%m%d_%H%M%S` timestamp. -/
structure PyTimestamp where
  year : ℕ
  month : ℕ
  day : ℕ
  hour : ℕ
  minute : ℕ
  second : ℕ
deriving DecidableEq

/-- `datetime.strptime(s, "%Y%m%d_%H%M%S")` for the zero-padded strings
`strftime` produces: eight digits, an underscore, six digits, with the
field ranges `datetime` accepts.  A string with no underscore (or any
other shape) raises `ValueError`, modelled as `none`. -/
def strptime_Ymd_HMS (s : PyStr) : Option PyTimestamp :=
  match splitOnChar '_' s with
  | [d8, t6] =>
    if d8.length = 8 ∧ t6.length = 6 ∧ (d8 ++ t6).all Char.isDigit then
      let y := digitsValue (d8.take 4)
      let mo := digitsValue ((d8.drop 4).take 2)
      let d := digitsValue (d8.drop 6)
      let h := digitsValue (t6.take 2)
      let mi := digitsValue ((t6.drop 2).take 2)
      let sec := digitsValue (t6.drop 4)
      if 1 ≤ mo ∧ mo ≤ 12 ∧ 1 ≤ d ∧ d ≤ 31 ∧ h ≤ 23 ∧ mi ≤ 59 ∧ sec ≤ 59 then
        some ⟨y, mo, d, h, mi, sec⟩
      else none
    else none
  | _ => none

/-- The per-file parsing step of `get_available_backups`:
`parts = name.split("_")`; when there are at least 4 parts, the version
is `parts[2]` and the timestamp string is `parts[-1].split(".")[0]`,
parsed with `strptime(..., "%Y%m%d_%H%M%S")`.  A `ValueError` from
`strptime` is caught and the file is skipped (`none`). -/
def parse_backup_filename (name : PyStr) : Option (PyStr × PyTimestamp) :=
  let parts := splitOnChar '_' name
  if 4 ≤ parts.length then
    let version := parts.getD 2 []
    let tsStr := (splitOnChar '.' (parts.getLastD [])).headD []
    match strptime_Ymd_HMS tsStr with
    | some ts => some (version, ts)
    | none => none
  else none

/-- `BackupManager.get_available_backups`: the device's archive files
sorted newest-first, each parsed into `(path, version, timestamp)`;
files whose names fail to parse are skipped. -/
def get_available_backups (files : List BackupFile) :
    List (PyStr × PyStr × PyTimestamp) :=
  (sortByMtimeDesc files).filterMap fun f =>
    (parse_backup_filename f.name).map fun vt => (f.name, vt.1, vt.2)

/-! ### Update orchestrator (`src/daemon/main.py`)

`_apply_update` notifies progress 10, creates a backup (aborting with a
single failure notification on backup failure), notifies progress 30,
then for each declared file downloads it to its destination and — when a
checksum is declared — verifies it with `OTAClient.verify_file`; the
first download or verification failure emits one failure notification
and returns.  Only after every file succeeds is the stored version
updated, the server report sent and the success notification emitted.
-/

/-- One declared update file together with its environment: the bytes
the server delivers for it and whether its download (after the
transport's internal retries) ultimately succeeds. -/
structure UpdateFileSpec where
  path : PyStr
  destination : PyStr
  checksum : Option PyStr
  size_bytes : ℕ
  payload : List ℕ
  download_ok : Bool

/-- A call into the notification system. -/
inductive NotifEvent
  | in_progress (version : PyStr) (progress : ℚ)
  | result (version : PyStr) (success : Bool)
  | scheduled (version : PyStr) (time : PyStr)

/-- Number of terminal failure notifications in a list of events. -/
def countResults (success : Bool) (events : List NotifEvent) : ℕ :=
  (events.filter fun e =>
    match e with
    | .result _ s => s == success
    | _ => false).length

/-- Accumulated effects of the per-file loop of `_apply_update`:
events emitted, download attempts (by destination, in order), files
written to their destinations, and whether the loop completed. -/
structure FileLoopResult where
  events : List NotifEvent
  downloads : List PyStr
  written : List (PyStr × List ℕ)
  completed : Bool

/-- The `for i, file_info in enumerate(update_files)` loop of
`_apply_update`.  `total` is `len(update_files)`; `idx` is `i`.  A
download failure or a failed checksum verification emits one failure
notification and stops; otherwise the per-file progress
`30 + 50 * (i + 1) / total` is notified and the loop continues. -/
def apply_files_loop (version : PyStr) (total : ℕ) :
    ℕ → List UpdateFileSpec → FileLoopResult
  | _, [] => ⟨[], [], [], true⟩
  | idx, f :: rest =>
    if !f.download_ok then
      ⟨[.result version false], [f.destination], [], false⟩
    else
      let verified :=
        match f.checksum with
        | some c => verify_file f.payload c
        | none => true
      if verified then
        let prog := NotifEvent.in_progress version (30 + 50 * ((idx : ℚ) + 1) / total)
        let r := apply_files_loop version total (idx + 1) rest
        ⟨prog :: r.events, f.destination :: r.downloads,
         (f.destination, f.payload) :: r.written, r.completed⟩
      else
        ⟨[.result version false], [f.destination],
         [(f.destination, f.payload)], false⟩

/-- Overall outcome of one `_apply_update` run. -/
structure ApplyResult where
  version : PyStr                -- `config_manager.version` afterwards
  events : List NotifEvent
  downloads : List PyStr
  written : List (PyStr × List ℕ)
  reports : List (PyStr × Bool)  -- `report_update_status` calls

def apply_update (current version : PyStr) (files : List UpdateFileSpec)
    (backup_ok : Bool) : ApplyResult :=
  if !backup_ok then
    ⟨current, [.in_progress version 10, .result version false], [], [], []⟩
  else
    let r := apply_files_loop version files.length 0 files
    if r.completed then
      ⟨version,
       [.in_progress version 10, .in_progress version 30] ++ r.events ++
         [.in_progress version 100, .result version true],
       r.downloads, r.written, [(version, true)]⟩
    else
      ⟨current,
       [.in_progress version 10, .in_progress version 30] ++ r.events,
       r.downloads, r.written, []⟩

/-- `OTADaemon._check_disk_space`: required space is the sum of the
declared file sizes in MB plus a 500 MB backup estimate plus a 100 MB
buffer; it passes when the free space in MB is at least that. -/
def check_disk_space (sizes : List ℕ) (freeBytes : ℕ) : Bool :=
  let required_mb : ℚ := (sizes.map (fun s : ℕ => (s : ℚ) / (1024 * 1024))).sum + 500 + 100
  let free_mb : ℚ := (freeBytes : ℚ) / (1024 * 1024)
  decide (free_mb ≥ required_mb)

/-- Outcome of one `_schedule_update` call. -/
structure ScheduleResult where
  events : List NotifEvent
  scheduled_tasks : List (PyStr × PyStr)  -- (version, HH:MM) tasks added
  applied : Option ApplyResult            -- immediate execution, if any

/-- `OTADaemon._schedule_update`: fetch the manifest (a failed fetch
just logs), check disk space (failure notifies once and aborts before
any download or scheduling), then either add a scheduled install task or
run `_apply_update` immediately. -/
def schedule_update (manifest : Option (PyStr × List UpdateFileSpec))
    (freeBytes : ℕ) (scheduled_time : Option PyStr)
    (current : PyStr) (backup_ok : Bool) : ScheduleResult :=
  match manifest with
  | none => ⟨[], [], none⟩
  | some (version, files) =>
    if !check_disk_space (files.map fun f => f.size_bytes) freeBytes then
      ⟨[.result version false], [], none⟩
    else
      match scheduled_time with
      | some t => ⟨[.scheduled version t], [(version, t)], none⟩
      | none =>
        let r := apply_update current version files backup_ok
        ⟨NotifEvent.in_progress version 0 :: r.events, [], some r⟩

/-! ## Claims -/

/-- Claim C6: for every task constructed with a `schedule_time` whose
wall-clock HH:MM target is in the past relative to the computation
instant, the computed `next_execution` is strictly later than that
instant and at most 24 hours after it (the target rolls to the same
time tomorrow, never stays in the past). -/
theorem C6_next_execution_future
    (nm s : PyStr) (h m : ℤ) (now : PyDateTime)
    (hu0 : 0 ≤ now.usec) (hu1 : now.usec < 86400000000)
    (hp : parse_schedule_time s = some (h, m))
    (hh0 : 0 ≤ h) (hh1 : h ≤ 23) (hm0 : 0 ≤ m) (hm1 : m ≤ 59)
    (hpast : (h * 3600 + m * 60) * 1000000 < now.usec) :
    ∃ t, (mkTask nm (some s) now).next_execution = some t ∧
      now.abs < t.abs ∧ t.abs ≤ now.abs + 86400000000 := by
  have hs : s ≠ [] := by
    intro he
    subst he
    simp [parse_schedule_time, splitOnChar, splitOnCharAux] at hp
  have hle : PyDateTime.le ⟨now.day, (h * 3600 + m * 60) * 1000000⟩ now = true := by
    simp [PyDateTime.le]
    omega
  refine ⟨⟨now.day + 1, (h * 3600 + m * 60) * 1000000⟩, ?_, ?_, ?_⟩
  · simp [mkTask, calculate_next_execution, hs, hp, hh0, hh1, hm0, hm1, hle]
  · simp [PyDateTime.abs]
    omega
  · simp [PyDateTime.abs]
    omega

/-- Witness for C6 at a concrete instant (13:53:20 on day 19500) and a
schedule time of 03:00, which is already past: the task rolls to 03:00
the next day. -/
theorem C6_witness :
    ∃ t, (mkTask "update_check_0300".data (some "03:00".data)
            ⟨19500, 50000000000⟩).next_execution = some t ∧
      PyDateTime.abs ⟨19500, 50000000000⟩ < t.abs ∧
      t.abs ≤ PyDateTime.abs ⟨19500, 50000000000⟩ + 86400000000 :=
  C6_next_execution_future "update_check_0300".data "03:00".data 3 0
    ⟨19500, 50000000000⟩ (by decide) (by decide) (by decide) (by decide)
    (by decide) (by decide) (by decide) (by decide)

/-- Claim C10: a task whose `schedule_time` string is present but not
parseable as HH:MM is constructed successfully with
`next_execution = None`, and `is_due` returns false at every later
instant — the task is silently never run.  (The hypothesis covers both
parse failures and out-of-range hours/minutes, both of which raise
inside `_calculate_next_execution` and are caught there.) -/
theorem C10_unparseable_schedule_never_due
    (nm s : PyStr) (now now2 : PyDateTime)
    (hne : s ≠ [])
    (hbad : ∀ h m, parse_schedule_time s = some (h, m) →
      ¬(0 ≤ h ∧ h ≤ 23 ∧ 0 ≤ m ∧ m ≤ 59)) :
    (mkTask nm (some s) now).next_execution = none ∧
    is_due (mkTask nm (some s) now).next_execution now2 = false := by
  cases hps : parse_schedule_time s with
  | none => simp [mkTask, calculate_next_execution, hne, hps, is_due]
  | some hm =>
    have hb := hbad hm.1 hm.2 (by rw [hps])
    simp [mkTask, calculate_next_execution, hne, hps, is_due, hb]

/-- Witness for C10 with the malformed schedule string "abc". -/
theorem C10_witness :
    (mkTask "t".data (some "abc".data) ⟨0, 0⟩).next_execution = none ∧
    is_due (mkTask "t".data (some "abc".data) ⟨0, 0⟩).next_execution ⟨400, 0⟩ = false :=
  C10_unparseable_schedule_never_due "t".data "abc".data ⟨0, 0⟩ ⟨400, 0⟩
    (by decide)
    (fun h m hc => by
      rw [show parse_schedule_time "abc".data = none from by decide] at hc
      exact Option.noConfusion hc)

/-- When every attempt hits a network error, `fetch_manifest` performs
exactly `max_retries = 5` attempts with back-off sleeps 5, 10, 20, 40
and returns `None`. -/
theorem fetch_manifest_all_netError (f : ℕ → FetchOutcome) (mock : Bool)
    (hf : ∀ k, 1 ≤ k → k ≤ 5 → f k = .netError) :
    fetch_manifest f mock = ⟨none, 5, [5, 10, 20, 40]⟩ := by
  have h1 := hf 1 (by omega) (by omega)
  have h2 := hf 2 (by omega) (by omega)
  have h3 := hf 3 (by omega) (by omega)
  have h4 := hf 4 (by omega) (by omega)
  have h5 := hf 5 (by omega) (by omega)
  simp [fetch_manifest, max_retries, fetch_manifest_loop, retry_delay,
    h1, h2, h3, h4, h5]

/-- When every attempt fails, `download_file` performs exactly 5
attempts with back-off sleeps 5, 10, 20, 40 and reports failure. -/
theorem download_file_all_fail (g : ℕ → DownloadOutcome)
    (hg : ∀ k, 1 ≤ k → k ≤ 5 → g k = .fail) :
    download_file g = ⟨false, 5, [5, 10, 20, 40]⟩ := by
  have h1 := hg 1 (by omega) (by omega)
  have h2 := hg 2 (by omega) (by omega)
  have h3 := hg 3 (by omega) (by omega)
  have h4 := hg 4 (by omega) (by omega)
  have h5 := hg 5 (by omega) (by omega)
  simp [download_file, max_retries, download_file_loop, retry_delay,
    h1, h2, h3, h4, h5]

/-- After `k` failed attempts (k ≤ 4) and a success on attempt `k + 1`,
`download_file` has slept `5 * 2^(i-1)` after each failed attempt `i`
and performed `k + 1` attempts in total. -/
theorem download_file_succeeds_after (g : ℕ → DownloadOutcome) (k : ℕ)
    (hk1 : 1 ≤ k) (hk4 : k ≤ 4)
    (hfail : ∀ j, 1 ≤ j → j ≤ k → g j = .fail) (hok : g (k + 1) = .ok) :
    download_file g = ⟨true, k + 1, (List.range k).map fun i => 5 * 2 ^ i⟩ := by
  interval_cases k
  · have h1 := hfail 1 (by omega) (by omega)
    simp [download_file, max_retries, download_file_loop, retry_delay, h1, hok,
      List.range_succ]
  · have h1 := hfail 1 (by omega) (by omega)
    have h2 := hfail 2 (by omega) (by omega)
    simp [download_file, max_retries, download_file_loop, retry_delay, h1, h2, hok,
      List.range_succ]
  · have h1 := hfail 1 (by omega) (by omega)
    have h2 := hfail 2 (by omega) (by omega)
    have h3 := hfail 3 (by omega) (by omega)
    simp [download_file, max_retries, download_file_loop, retry_delay, h1, h2, h3,
      hok, List.range_succ]
  · have h1 := hfail 1 (by omega) (by omega)
    have h2 := hfail 2 (by omega) (by omega)
    have h3 := hfail 3 (by omega) (by omega)
    have h4 := hfail 4 (by omega) (by omega)
    simp [download_file, max_retries, download_file_loop, retry_delay, h1, h2, h3,
      h4, hok, List.range_succ]

/-- After `k` network errors (k ≤ 4) and a well-formed manifest on
attempt `k + 1`, `fetch_manifest` has slept `5 * 2^(i-1)` after each
failed attempt `i` and returns that manifest on attempt `k + 1`. -/
theorem fetch_manifest_succeeds_after (f : ℕ → FetchOutcome) (m : PyManifest) (k : ℕ)
    (hk1 : 1 ≤ k) (hk4 : k ≤ 4)
    (hfail : ∀ j, 1 ≤ j → j ≤ k → f j = .netError) (hok : f (k + 1) = .got m)
    (hv : m.version ≠ none) (hr : m.release_date ≠ none) :
    fetch_manifest f false = ⟨some m, k + 1, (List.range k).map fun i => 5 * 2 ^ i⟩ := by
  interval_cases k
  · have h1 := hfail 1 (by omega) (by omega)
    simp [fetch_manifest, max_retries, fetch_manifest_loop, retry_delay, h1, hok,
      hv, hr, List.range_succ]
  · have h1 := hfail 1 (by omega) (by omega)
    have h2 := hfail 2 (by omega) (by omega)
    simp [fetch_manifest, max_retries, fetch_manifest_loop, retry_delay, h1, h2,
      hok, hv, hr, List.range_succ]
  · have h1 := hfail 1 (by omega) (by omega)
    have h2 := hfail 2 (by omega) (by omega)
    have h3 := hfail 3 (by omega) (by omega)
    simp [fetch_manifest, max_retries, fetch_manifest_loop, retry_delay, h1, h2,
      h3, hok, hv, hr, List.range_succ]
  · have h1 := hfail 1 (by omega) (by omega)
    have h2 := hfail 2 (by omega) (by omega)
    have h3 := hfail 3 (by omega) (by omega)
    have h4 := hfail 4 (by omega) (by omega)
    simp [fetch_manifest, max_retries, fetch_manifest_loop, retry_delay, h1, h2,
      h3, h4, hok, hv, hr, List.range_succ]

/-- Claim C4: for the retried operations `fetch_manifest` and
`download_file`, a network-level failure on attempt `k` is followed by a
wait of `base_delay * 2^(k-1)` (base_delay = 5) before attempt `k + 1`;
at most 5 attempts are made, and after the 5th failed attempt no
further retry occurs and failure is returned to the caller. -/
theorem C4_retry_backoff (f : ℕ → FetchOutcome) (g : ℕ → DownloadOutcome) :
    ((∀ k, 1 ≤ k → k ≤ 5 → f k = .netError) →
      fetch_manifest f false = ⟨none, 5, [5, 10, 20, 40]⟩) ∧
    ((∀ k, 1 ≤ k → k ≤ 5 → g k = .fail) →
      download_file g = ⟨false, 5, [5, 10, 20, 40]⟩) ∧
    (∀ k, 1 ≤ k → k ≤ 4 →
      (∀ j, 1 ≤ j → j ≤ k → g j = .fail) → g (k + 1) = .ok →
      download_file g = ⟨true, k + 1, (List.range k).map fun i => 5 * 2 ^ i⟩) ∧
    (∀ k m, 1 ≤ k → k ≤ 4 →
      (∀ j, 1 ≤ j → j ≤ k → f j = .netError) → f (k + 1) = .got m →
      m.version ≠ none → m.release_date ≠ none →
      fetch_manifest f false = ⟨some m, k + 1, (List.range k).map fun i => 5 * 2 ^ i⟩) :=
  ⟨fetch_manifest_all_netError f false,
   download_file_all_fail g,
   fun k hk1 hk4 hfail hok => download_file_succeeds_after g k hk1 hk4 hfail hok,
   fun k m hk1 hk4 hfail hok hv hr =>
     fetch_manifest_succeeds_after f m k hk1 hk4 hfail hok hv hr⟩

/-- Witness for C4: a permanently failing network exhausts all 5
attempts of both operations with sleeps 5, 10, 20, 40; a network that
recovers on attempt 3 stops retrying there. -/
theorem C4_witness :
    fetch_manifest (fun _ => .netError) false = ⟨none, 5, [5, 10, 20, 40]⟩ ∧
    download_file (fun _ => .fail) = ⟨false, 5, [5, 10, 20, 40]⟩ ∧
    download_file (fun j => if j ≤ 2 then .fail else .ok) =
      ⟨true, 3, [5, 10]⟩ := by
  refine ⟨(C4_retry_backoff (fun _ => .netError) (fun _ => .fail)).1
            (fun _ _ _ => rfl),
          (C4_retry_backoff (fun _ => .netError) (fun _ => .fail)).2.1
            (fun _ _ _ => rfl), ?_⟩
  have h := (C4_retry_backoff (fun _ => .netError)
      (fun j => if j ≤ 2 then .fail else .ok)).2.2.1 2 (by omega) (by omega)
      (fun j hj1 hj2 => by simp [show j ≤ 2 from hj2])
      (by simp)
  simpa [List.range_succ] using h

/-- Counterexample to claim C9: `report_update_status` is not retried.
When the POST raises, the failure is surfaced to the caller after
exactly one attempt, not after 5. -/
theorem C9_counterexample :
    (report_update_status .raised).ok = false ∧
    (report_update_status .raised).attempts = 1 ∧
    ¬((report_update_status .raised).attempts = 5) := by decide

/-- Claim C9 (amended): `fetch_manifest` and `download_file` are
attempted up to the fixed maximum of 5 attempts before failure is
surfaced, but `report_update_status` performs exactly one attempt —
best-effort — and returns `False` on any failure without retrying. -/
theorem C9_attempt_ceilings (f : ℕ → FetchOutcome) (g : ℕ → DownloadOutcome)
    (o : ReportOutcome) :
    ((∀ k, 1 ≤ k → k ≤ 5 → f k = .netError) →
      (fetch_manifest f false).attempts = 5) ∧
    ((∀ k, 1 ≤ k → k ≤ 5 → g k = .fail) →
      (download_file g).attempts = 5) ∧
    (report_update_status o).attempts = 1 ∧
    ((report_update_status o).ok = true ↔ o = .ok200) := by
  refine ⟨fun hf => ?_, fun hg => ?_, ?_, ?_⟩
  · rw [fetch_manifest_all_netError f false hf]
  · rw [download_file_all_fail g hg]
  · cases o <;> simp [report_update_status]
  · cases o <;> simp [report_update_status]

/-- Witness for C9 (amended) on a permanently failing network. -/
theorem C9_witness :
    (fetch_manifest (fun _ => .netError) false).attempts = 5 ∧
    (download_file (fun _ => .fail)).attempts = 5 ∧
    (report_update_status .raised).attempts = 1 :=
  ⟨(C9_attempt_ceilings (fun _ => .netError) (fun _ => .fail) .raised).1
      (fun _ _ _ => rfl),
   (C9_attempt_ceilings (fun _ => .netError) (fun _ => .fail) .raised).2.1
      (fun _ _ _ => rfl),
   (C9_attempt_ceilings (fun _ => .netError) (fun _ => .fail) .raised).2.2.1⟩

/-- `sortByMtimeDesc` permutes the listing and sorts it newest-first. -/
theorem sortByMtimeDesc_spec (files : List BackupFile) :
    (sortByMtimeDesc files).Perm files ∧
    (sortByMtimeDesc files).Pairwise (fun a b => b.mtime ≤ a.mtime) := by
  constructor
  · exact List.perm_insertionSort _ files
  · haveI : IsTotal BackupFile (fun a b => b.mtime ≤ a.mtime) :=
      ⟨fun a b => le_total b.mtime a.mtime⟩
    haveI : IsTrans BackupFile (fun a b => b.mtime ≤ a.mtime) :=
      ⟨fun _ _ _ h1 h2 => le_trans h2 h1⟩
    exact List.sorted_insertionSort _ files

/-- Counterexample to claim C3's deletion-order clause: with retention
count 0 and two backups of modification times 1 and 2, the pruning loop
deletes the file with mtime 2 (the newer one) before the file with
mtime 1, so deletion does not proceed oldest-first. -/
theorem C3_counterexample :
    (cleanup_plan 0 [⟨"a".data, 1, 1, 1, true⟩, ⟨"b".data, 2, 1, 1, true⟩]).2 =
      [⟨"b".data, 2, 1, 1, true⟩, ⟨"a".data, 1, 1, 1, true⟩] ∧
    ¬((2 : ℚ) ≤ 1) := by
  constructor
  · decide
  · decide

/-- Claim C3 (amended): after retention pruning with count `N` over `M`
existing backups, exactly `min(M, N)` archives remain, the remaining
ones are the `N` most recent by modification time (every kept file is at
least as recent as every deleted file), both the kept list and the
deletion sequence are ordered newest-first — so the pruned files are
deleted newest-first, not oldest-first — and nothing is lost: kept and
deleted together are a permutation of the original listing. -/
theorem C3_retention_pruning (retention : ℕ) (files : List BackupFile) :
    (cleanup_plan retention files).1.length = min retention files.length ∧
    ((cleanup_plan retention files).1 ++ (cleanup_plan retention files).2).Perm files ∧
    (∀ a ∈ (cleanup_plan retention files).1,
      ∀ b ∈ (cleanup_plan retention files).2, b.mtime ≤ a.mtime) ∧
    (cleanup_plan retention files).1.Pairwise (fun a b => b.mtime ≤ a.mtime) ∧
    (cleanup_plan retention files).2.Pairwise (fun a b => b.mtime ≤ a.mtime) := by
  obtain ⟨hperm, hsorted⟩ := sortByMtimeDesc_spec files
  have hsplit : (cleanup_plan retention files).1 ++ (cleanup_plan retention files).2 =
      sortByMtimeDesc files := by
    simp [cleanup_plan]
  have hpw := hsplit ▸ hsorted
  have hparts := List.pairwise_append.mp hpw
  refine ⟨?_, ?_, hparts.2.2, hparts.1, hparts.2.1⟩
  · have hlen : (sortByMtimeDesc files).length = files.length :=
      (sortByMtimeDesc_spec files).1.length_eq
    simp [cleanup_plan, List.length_take, hlen]
  · rw [hsplit]
    exact hperm

/-- Claim C5: `get_available_backups` never parses the filenames
`create_backup` itself produces.  For the conventional name
`robot-ai_backup_1.0.0_TEST-DEVICE-123_20230515_103000.tar.gz`:
the embedded timestamp `20230515_103000` parses under
`%Y%m%d_%H%M%S`, but the code takes `parts[-1].split(".")[0]`, which is
only `103000` (the `%Y%m%d_%H%M%S` timestamp itself contains an
underscore, so `split("_")` cuts through it); `strptime` then raises on
`103000`, the exception handler skips the file, and the listing comes
back empty instead of containing one record with version `1.0.0` and
timestamp 2023-05-15 10:30:00. -/
theorem C5_listing_drops_conventional_names :
    strptime_Ymd_HMS "20230515_103000".data = some ⟨2023, 5, 15, 10, 30, 0⟩ ∧
    (splitOnChar '.' ((splitOnChar '_'
        (backup_filename "1.0.0".data "TEST-DEVICE-123".data
          "20230515_103000".data)).getLastD [])).headD [] = "103000".data ∧
    strptime_Ymd_HMS "103000".data = none ∧
    parse_backup_filename
      (backup_filename "1.0.0".data "TEST-DEVICE-123".data "20230515_103000".data) =
      none ∧
    get_available_backups
      [⟨backup_filename "1.0.0".data "TEST-DEVICE-123".data "20230515_103000".data,
        100, 1024, 3, true⟩] = [] := by
  decide

/-- Counterexample to claim C2: when the freshly written archive fails
verification (here: zero members), `create_backup` returns failure but
the unverifiable archive file is still on disk afterwards — nothing
deletes it. -/
theorem C2_counterexample :
    (create_backup 2 "TEST-DEVICE-123".data "1.0.0".data "20230515_103000".data []
        (.written 1024 0 true) 5).ok = false ∧
    backup_filename "1.0.0".data "TEST-DEVICE-123".data "20230515_103000".data ∈
      (create_backup 2 "TEST-DEVICE-123".data "1.0.0".data "20230515_103000".data []
        (.written 1024 0 true) 5).disk.map (fun f => f.name) := by
  decide

/-- Claim C2 (amended): whenever the freshly written archive fails
verification (unreadable, zero bytes, or zero entries), `create_backup`
returns failure, but the unverifiable archive file remains on disk —
the failure path performs no deletion, so the archive is left where a
later `get_latest_backup` can see it. -/
theorem C2_failed_verification_leaves_archive
    (retention : ℕ) (device version timestamp : PyStr)
    (disk : List BackupFile) (sizeBytes entries : ℕ) (readable : Bool) (mtime : ℚ)
    (hfail : verify_backup true sizeBytes readable entries = false) :
    (create_backup retention device version timestamp disk
        (.written sizeBytes entries readable) mtime).ok = false ∧
    (create_backup retention device version timestamp disk
        (.written sizeBytes entries readable) mtime).disk =
      disk ++ [⟨backup_filename version device timestamp, mtime, sizeBytes,
        entries, readable⟩] := by
  simp [create_backup, hfail]

/-- Witness for C2 (amended): a zero-entry archive. -/
theorem C2_witness :
    (create_backup 2 "DEV".data "1.0.0".data "20230515_103000".data []
        (.written 1024 0 true) 5).ok = false ∧
    (create_backup 2 "DEV".data "1.0.0".data "20230515_103000".data []
        (.written 1024 0 true) 5).disk =
      [] ++ [⟨backup_filename "1.0.0".data "DEV".data "20230515_103000".data,
        5, 1024, 0, true⟩] :=
  C2_failed_verification_leaves_archive 2 "DEV".data "1.0.0".data
    "20230515_103000".data [] 1024 0 true 5 (by decide)

/-- The float arithmetic of `_check_disk_space`, exactly over ℚ: the
check passes iff the free bytes are at least the declared sizes plus
600 MB (500 MB backup estimate + 100 MB buffer) in bytes. -/
theorem check_disk_space_iff (sizes : List ℕ) (freeBytes : ℕ) :
    check_disk_space sizes freeBytes = true ↔
      sizes.sum + 629145600 ≤ freeBytes := by
  unfold check_disk_space
  simp only [decide_eq_true_eq, ge_iff_le]
  have hsum : (sizes.map (fun s : ℕ => (s : ℚ) / (1024 * 1024))).sum =
      (sizes.sum : ℚ) / (1024 * 1024) := by
    induction sizes with
    | nil => simp
    | cons a l ih =>
      rw [List.map_cons, List.sum_cons, List.sum_cons, Nat.cast_add, add_div, ih]
  have e1 : (sizes.sum : ℚ) / (1024 * 1024) + 500 + 100 =
      ((sizes.sum : ℚ) + 629145600) / (1024 * 1024) := by
    field_simp
    ring
  rw [hsum, e1, div_le_div_iff_of_pos_right (by norm_num : (0:ℚ) < 1024 * 1024)]
  exact_mod_cast Iff.rfl

/-- Claim C7: the disk-space check requires the sum of declared file
sizes in MB plus a 500 MB backup estimate plus a 100 MB buffer
(equivalently, over the exact rational arithmetic, `sum + 600 MB` of
bytes); when free space is below that, `_schedule_update` aborts with a
single reported failure, schedules nothing (the run never reaches
`Scheduled`), and runs no install — so no download begins. -/
theorem C7_disk_space_gate :
    (∀ sizes freeBytes, check_disk_space sizes freeBytes = true ↔
      sizes.sum + 629145600 ≤ freeBytes) ∧
    (∀ (version : PyStr) (files : List UpdateFileSpec) (freeBytes : ℕ)
      (t : Option PyStr) (current : PyStr) (backup_ok : Bool),
      freeBytes < (files.map fun f => f.size_bytes).sum + 629145600 →
      (schedule_update (some (version, files)) freeBytes t current backup_ok).events =
          [.result version false] ∧
      (schedule_update (some (version, files)) freeBytes t current
          backup_ok).scheduled_tasks = [] ∧
      (schedule_update (some (version, files)) freeBytes t current
          backup_ok).applied = none) := by
  refine ⟨check_disk_space_iff, ?_⟩
  intro version files freeBytes t current backup_ok hlow
  have hfalse : check_disk_space (files.map fun f => f.size_bytes) freeBytes = false := by
    rw [← Bool.not_eq_true, check_disk_space_iff]
    omega
  refine ⟨?_, ?_, ?_⟩ <;> simp [schedule_update, hfalse]

/-- Witness for C7: one declared file of 1 MiB with no free space. -/
theorem C7_witness :
    (schedule_update
      (some ("1.1.0".data,
        [⟨"p".data, "d".data, none, 1048576, [], true⟩])) 0 none "1.0.0".data
        true).events = [.result "1.1.0".data false] ∧
    (schedule_update
      (some ("1.1.0".data,
        [⟨"p".data, "d".data, none, 1048576, [], true⟩])) 0 none "1.0.0".data
        true).scheduled_tasks = [] ∧
    (schedule_update
      (some ("1.1.0".data,
        [⟨"p".data, "d".data, none, 1048576, [], true⟩])) 0 none "1.0.0".data
        true).applied = none :=
  C7_disk_space_gate.2 "1.1.0".data
    [⟨"p".data, "d".data, none, 1048576, [], true⟩] 0 none "1.0.0".data true
    (by decide)

/-- Upper-casing then lower-casing a hex digit character is the same as
lower-casing it. -/
theorem lower_upper_hexChar :
    ∀ d < 16, lowerChar (upperChar (hexChar d)) = lowerChar (hexChar d) := by
  decide

/-- Every character of `natToHex` is a hex digit character. -/
theorem natToHex_mem :
    ∀ (k n : ℕ), ∀ c ∈ natToHex k n, ∃ d, d < 16 ∧ c = hexChar d := by
  intro k
  induction k with
  | zero => intro n c hc; simp [natToHex] at hc
  | succ k ih =>
    intro n c hc
    rw [natToHex, List.mem_append] at hc
    rcases hc with hc | hc
    · exact ih (n >>> 4) c hc
    · simp at hc
      exact ⟨n % 16, Nat.mod_lt n (by norm_num), hc⟩

/-- Every character of a SHA-256 hex digest is a hex digit character. -/
theorem sha256_hexdigest_mem (p : List ℕ) :
    ∀ c ∈ sha256_hexdigest p, ∃ d, d < 16 ∧ c = hexChar d := by
  intro c hc
  rw [sha256_hexdigest, List.mem_flatten] at hc
  obtain ⟨l, hl, hcl⟩ := hc
  rw [List.mem_map] at hl
  obtain ⟨w, _, rfl⟩ := hl
  exact natToHex_mem 8 w c hcl

/-- Lower-casing is insensitive to upper-casing a hex digest. -/
theorem pyLower_pyUpper_digest (p : List ℕ) :
    pyLower (pyUpper (sha256_hexdigest p)) = pyLower (sha256_hexdigest p) := by
  rw [pyLower, pyUpper, List.map_map]
  apply List.map_congr_left
  intro c hc
  obtain ⟨d, hd, rfl⟩ := sha256_hexdigest_mem p c hc
  exact lower_upper_hexChar d hd

/-- Claim C8: `verify_file` returns true exactly when the SHA-256 hex
digest of the file's bytes equals the declared checksum compared
case-insensitively; a payload verifies against its own digest in either
letter case; a payload whose digest differs from the declared checksum
verifies false; and, concretely, every single-bit flip of the payload
`[0x61]` makes verification against the original digest return false. -/
theorem C8_checksum_verification :
    (∀ (p : List ℕ) (e : PyStr), verify_file p e = true ↔
      pyLower (sha256_hexdigest p) = pyLower e) ∧
    (∀ p : List ℕ, verify_file p (sha256_hexdigest p) = true ∧
      verify_file p (pyUpper (sha256_hexdigest p)) = true) ∧
    (∀ (p : List ℕ) (e : PyStr), pyLower (sha256_hexdigest p) ≠ pyLower e →
      verify_file p e = false) ∧
    (∀ i < 8, verify_file (flipBit [0x61] i) (sha256_hexdigest [0x61]) = false) := by
  refine ⟨?_, ?_, ?_, ?_⟩
  · intro p e
    simp [verify_file]
  · intro p
    constructor
    · simp [verify_file]
    · simp [verify_file, pyLower_pyUpper_digest]
  · intro p e h
    simp [verify_file, h]
  · decide

/-- Witness for C8: the byte `0x61` does not verify against the
checksum string "00", whose lowercase form differs from its digest. -/
theorem C8_witness :
    verify_file [0x61] "00".data = false :=
  C8_checksum_verification.2.2.1 [0x61] "00".data (by decide)

/-- Progress events do not count as terminal result notifications. -/
theorem countResults_cons_progress (b : Bool) (v : PyStr) (q : ℚ)
    (evs : List NotifEvent) :
    countResults b (.in_progress v q :: evs) = countResults b evs := by
  simp [countResults]

theorem countResults_append (b : Bool) (xs ys : List NotifEvent) :
    countResults b (xs ++ ys) = countResults b xs + countResults b ys := by
  simp [countResults, List.filter_append]

/-- The per-file loop of `_apply_update`, run on a list whose prefix
downloads and verifies cleanly and whose next file downloads but fails
its declared checksum: the loop downloads and writes exactly the prefix
plus the failing file, emits exactly one failure notification and no
success notification, and does not complete. -/
theorem apply_files_loop_abort (version : PyStr) (total : ℕ) (chk : PyStr)
    (f : UpdateFileSpec) (rest : List UpdateFileSpec)
    (hdl : f.download_ok = true) (hchk : f.checksum = some chk)
    (hver : verify_file f.payload chk = false) :
    ∀ (pre : List UpdateFileSpec) (idx : ℕ),
    (∀ g ∈ pre, g.download_ok = true ∧
      ∀ c, g.checksum = some c → verify_file g.payload c = true) →
    countResults false (apply_files_loop version total idx (pre ++ f :: rest)).events = 1 ∧
    countResults true (apply_files_loop version total idx (pre ++ f :: rest)).events = 0 ∧
    (apply_files_loop version total idx (pre ++ f :: rest)).downloads =
      (pre ++ [f]).map (fun g => g.destination) ∧
    (apply_files_loop version total idx (pre ++ f :: rest)).written =
      (pre ++ [f]).map (fun g => (g.destination, g.payload)) ∧
    (apply_files_loop version total idx (pre ++ f :: rest)).completed = false := by
  intro pre
  induction pre with
  | nil =>
    intro idx _
    simp [apply_files_loop, hdl, hchk, hver, countResults]
  | cons g pre ih =>
    intro idx hpre
    have hg := hpre g (List.mem_cons_self g pre)
    have hrec := ih (idx + 1) (fun g' hm => hpre g' (List.mem_cons_of_mem g hm))
    have hgver : (match g.checksum with
        | some c => verify_file g.payload c
        | none => true) = true := by
      cases hc : g.checksum with
      | none => rfl
      | some c => exact hg.2 c hc
    rw [List.cons_append]
    simp only [apply_files_loop, hg.1, Bool.not_true, Bool.false_eq_true,
      if_false, hgver, if_true]
    refine ⟨?_, ?_, ?_, ?_, ?_⟩
    · rw [countResults_cons_progress, hrec.1]
    · rw [countResults_cons_progress, hrec.2.1]
    · rw [hrec.2.2.1]
      simp
    · rw [hrec.2.2.2.1]
      simp
    · exact hrec.2.2.2.2

/-- Claim C1: in an install run where every file before some file
downloads and verifies cleanly and that file's downloaded bytes fail
their declared checksum, `_apply_update` aborts at that file: no later
file is downloaded or verified, the stored installed version keeps its
pre-install value, exactly one failure notification (and no success
notification) is emitted for the run, no status report is sent, and the
earlier files — already written to their destinations — are left in
place, along with the failing file itself. -/
theorem C1_checksum_failure_aborts
    (current version : PyStr) (pre : List UpdateFileSpec) (f : UpdateFileSpec)
    (rest : List UpdateFileSpec) (chk : PyStr)
    (hpre : ∀ g ∈ pre, g.download_ok = true ∧
      ∀ c, g.checksum = some c → verify_file g.payload c = true)
    (hdl : f.download_ok = true) (hchk : f.checksum = some chk)
    (hver : verify_file f.payload chk = false) :
    (apply_update current version (pre ++ f :: rest) true).version = current ∧
    countResults false (apply_update current version (pre ++ f :: rest) true).events = 1 ∧
    countResults true (apply_update current version (pre ++ f :: rest) true).events = 0 ∧
    (apply_update current version (pre ++ f :: rest) true).downloads =
      (pre ++ [f]).map (fun g => g.destination) ∧
    (apply_update current version (pre ++ f :: rest) true).written =
      (pre ++ [f]).map (fun g => (g.destination, g.payload)) ∧
    (apply_update current version (pre ++ f :: rest) true).reports = [] := by
  obtain ⟨hc1, hc2, hc3, hc4, hc5⟩ := apply_files_loop_abort version
    (pre ++ f :: rest).length chk f rest hdl hchk hver pre 0 hpre
  have happ : apply_update current version (pre ++ f :: rest) true =
      ⟨current,
       [.in_progress version 10, .in_progress version 30] ++
         (apply_files_loop version (pre ++ f :: rest).length 0 (pre ++ f :: rest)).events,
       (apply_files_loop version (pre ++ f :: rest).length 0 (pre ++ f :: rest)).downloads,
       (apply_files_loop version (pre ++ f :: rest).length 0 (pre ++ f :: rest)).written,
       []⟩ := by
    simp only [apply_update, Bool.not_true, Bool.false_eq_true, if_false, hc5]
  rw [happ]
  have hprog : ∀ b, countResults b
      [NotifEvent.in_progress version 10, NotifEvent.in_progress version 30] = 0 := by
    intro b
    simp [countResults]
  refine ⟨rfl, ?_, ?_, hc3, hc4, rfl⟩
  · rw [countResults_append, hprog, hc1]
  · rw [countResults_append, hprog, hc2]

/-- Witness for C1: a one-file manifest whose file downloads but fails
its declared checksum ("00" is not the digest of the byte 0x61). -/
theorem C1_witness :
    (apply_update "1.0.0".data "1.1.0".data
      [(⟨"p".data, "d".data, some "00".data, 1, [0x61], true⟩ : UpdateFileSpec)]
      true).version = "1.0.0".data ∧
    countResults false (apply_update "1.0.0".data "1.1.0".data
      [(⟨"p".data, "d".data, some "00".data, 1, [0x61], true⟩ : UpdateFileSpec)]
      true).events = 1 ∧
    countResults true (apply_update "1.0.0".data "1.1.0".data
      [(⟨"p".data, "d".data, some "00".data, 1, [0x61], true⟩ : UpdateFileSpec)]
      true).events = 0 ∧
    (apply_update "1.0.0".data "1.1.0".data
      [(⟨"p".data, "d".data, some "00".data, 1, [0x61], true⟩ : UpdateFileSpec)]
      true).downloads = ["d".data] ∧
    (apply_update "1.0.0".data "1.1.0".data
      [(⟨"p".data, "d".data, some "00".data, 1, [0x61], true⟩ : UpdateFileSpec)]
      true).written = [("d".data, [0x61])] ∧
    (apply_update "1.0.0".data "1.1.0".data
      [(⟨"p".data, "d".data, some "00".data, 1, [0x61], true⟩ : UpdateFileSpec)]
      true).reports = [] :=
  C1_checksum_failure_aborts "1.0.0".data "1.1.0".data []
    ⟨"p".data, "d".data, some "00".data, 1, [0x61], true⟩ [] "00".data
    (fun g hg => absurd hg (List.not_mem_nil g))
    rfl rfl (by decide)
